import Mathlib

/-!
Shallow embedding of the `VoltTyphoonTimeline` playback engine
(source: `src/unnamed/part_003`, class `VoltTyphoonTimeline`).

Conventions of the embedding:
* JS numbers that hold times are modelled as `ℚ` (millisecond counts and
  real-second frame deltas; the source arithmetic on them is plain `+ * /`).
* An `Event` carries a `uid : Nat` standing for JS object identity; the
  mutable `processed` flag lives on the event record, as in the source.
* DOM / three.js / gsap side effects are not state of the scheduler; the
  hand-off of a chosen event to `createPacketFlow` is recorded in a ghost
  field `dispatchedLog` (the list of uids passed to the Flow Choreographer
  since the last restart).
-/

namespace VTViz

/-- Event record, from the event array consumed by the engine
(`this.data`; fields as used by `processEvents` / `createPacketFlow` /
`animateMultiHop`).  `uid` models JS object identity; `timestamp` is
`new Date(event.timestamp).getTime()` in epoch milliseconds;
`description` is the optional free-form text (absent = `none`), tested
by `createPacketFlow`'s NTDS branch. -/
structure Event where
  uid : Nat
  timestamp : ℚ
  source_ip : String
  destination_ip : String
  category : String
  attack_type : String
  severity : ℚ
  success : Bool
  stage : Int
  proxy_chain : List String
  description : Option String
  processed : Bool
deriving DecidableEq, Repr

/-- Engine state: the fields of `VoltTyphoonTimeline` that the playback
clock and the event gate read or write (constructor, part_003 lines 5-24,
plus the one-shot overlay flags `cveExplained` / `criticalAccessShown` /
`ntdsShown` / `otShown` that the dispatch path tests and sets, lines
546-549 and 688-710; they start as JS `undefined`, i.e. falsy, modelled
`false`).  `dispatchedLog` is a ghost field recording the uids handed to
`createPacketFlow`, in dispatch order, since the last restart. -/
structure TimelineState where
  data : List Event
  currentTime : ℚ
  playbackSpeed : ℚ
  isPlaying : Bool
  currentStage : Int
  lastEventProcessedTime : ℚ
  lastProcessedEventType : Option String
  startTime : ℚ
  cveExplained : Bool
  criticalAccessShown : Bool
  ntdsShown : Bool
  otShown : Bool
  dispatchedLog : List Nat
deriving DecidableEq, Repr

/-- `this.duration = 72 * 3600 * 1000` ms (constructor lines 22-24). -/
def timelineDuration : ℚ := 72 * 3600 * 1000

/-- One stage window, bounds in simulated hours (`start` / `end` fields of
the entries of `this.stages`; `end` is renamed `stop` because `end` is a
keyword). -/
structure StageWindow where
  start : ℚ
  stop : ℚ
deriving DecidableEq, Repr

/-- The five stage windows of `this.stages` (constructor lines 33-94):
(0,7), (7,24), (24,48), (48,60), (60,72). -/
def stages : List StageWindow :=
  [⟨0, 7⟩, ⟨7, 24⟩, ⟨24, 48⟩, ⟨48, 60⟩, ⟨60, 72⟩]

/-- `this.stages.findIndex(s => currentHour >= s.start && currentHour < s.end)`
(update, line 1807); JS `findIndex` yields `-1` when nothing matches. -/
def findStageIdx (hour : ℚ) : Int :=
  match stages.findIdx? (fun st => decide (st.start ≤ hour) && decide (hour < st.stop)) with
  | some i => (i : Int)
  | none => -1

/-- Candidate filter of `processEvents` (lines 512-515): events whose
timestamp is due and whose `processed` flag is still false. -/
def candidateB (ts : ℚ) (e : Event) : Bool :=
  decide (e.timestamp ≤ ts) && !e.processed

/-- `nextEvent.processed = true` (line 542): the JS mutation of the chosen
event object, modelled as setting the flag on every list entry with the
chosen uid (event objects are distinct, so uids identify them). -/
def markProcessed (uid : Nat) (data : List Event) : List Event :=
  data.map (fun e => if e.uid = uid then { e with processed := true } else e)

/-- Selection logic of `processEvents` (lines 511-537): among unprocessed
due events, prefer a current-stage event of the last processed attack
type, else the first current-stage event, else the first due event; `none`
exactly when no candidate exists (`availableEvents.length === 0`). -/
def selectNextEvent (data : List Event) (stage : Int) (lastType : Option String)
    (ts : ℚ) : Option Event :=
  let availableEvents := data.filter (candidateB ts)
  if availableEvents.length = 0 then none
  else
    let currentStageEvents := availableEvents.filter (fun e => e.stage == stage)
    if 0 < currentStageEvents.length then
      let sameTypeEvents :=
        currentStageEvents.filter (fun e => lastType == some e.attack_type)
      if 0 < sameTypeEvents.length then sameTypeEvents.head?
      else currentStageEvents.head?
    else availableEvents.head?

/-- `event.description && event.description.includes('NTDS.dit')`
(createPacketFlow, line 698): an absent description is falsy; otherwise
test for the substring.  `includes` is substring containment, embedded
over the character lists. -/
def descHasNTDS (d : Option String) : Bool :=
  match d with
  | none => false
  | some str => decide ("NTDS.dit".toList <:+: str.toList)

/-- The events whose dispatch can open an explanatory overlay: the five
guards of lines 688 (`highlightCriticalAccess`), 698
(`highlightNTDSExtraction`), 704 (`highlightCriticalInfrastructure`),
714 (`highlightExfiltration`) and 546 (`highlightZeroDay`), with their
one-shot-flag conjuncts dropped.  An event failing every guard here can
never pause playback, whatever the flags. -/
def overlayTrigger (e : Event) : Bool :=
  (e.category == "credential_access") ||
  (e.attack_type == "credential_harvesting" && descHasNTDS e.description) ||
  (e.attack_type == "ot_system_access") ||
  (e.attack_type == "multi_hop_exfiltration" && e.stage == 5) ||
  (e.attack_type == "zero_day_exploit")

/-- The synchronous scheduler-state effects of dispatching event `e`:
first `createPacketFlow`'s overlay section (lines 687-716, in source
order — credential access, NTDS extraction, OT access, stage-5
exfiltration), then the zero-day branch of `processEvents` itself (lines
546-551).  Each taken branch sets its one-shot flag and calls an overlay
function whose entry synchronously sets `this.isPlaying = false`
(`highlightCriticalAccess` lines 1497-1498, `highlightNTDSExtraction`
1026-1027, `highlightCriticalInfrastructure` 1116-1117,
`highlightExfiltration` 1326-1327, `highlightZeroDay` 925-926); the
overlays' deferred restores and the deferred flag resets (setTimeout)
are not synchronous state and are modelled with the other deferred
callbacks (`dismissZeroDayAlert`, `FullState.pendingTimeouts`). -/
def dispatchOverlayEffects (e : Event) (s : TimelineState) : TimelineState :=
  let s1 :=
    if e.category == "credential_access" && !s.criticalAccessShown then
      { s with criticalAccessShown := true, isPlaying := false }
    else s
  let s2 :=
    if e.attack_type == "credential_harvesting" && descHasNTDS e.description
        && !s1.ntdsShown then
      { s1 with ntdsShown := true, isPlaying := false }
    else s1
  let s3 :=
    if e.attack_type == "ot_system_access" && !s2.otShown then
      { s2 with otShown := true, isPlaying := false }
    else s2
  let s4 :=
    if e.attack_type == "multi_hop_exfiltration" && e.stage == 5 then
      { s3 with isPlaying := false }
    else s3
  if e.attack_type == "zero_day_exploit" && !s4.cveExplained then
    { s4 with cveExplained := true, isPlaying := false }
  else s4

/-- `processEvents(currentTimestamp)` (lines 502-605).  The 500 ms gate
(lines 504-509) compares `currentTimestamp` — which the caller computes as
`startTime + currentTime`, a *simulated* timestamp — against the recorded
`lastEventProcessedTime` (itself a simulated timestamp, line 540); the
`this.lastEventProcessedTime &&` truthiness test is the `≠ 0` conjunct.
On a dispatch the chosen event is marked processed and handed to
`createPacketFlow` (recorded in `dispatchedLog`), whose overlay side
effects — and the zero-day overlay of lines 546-551 — can synchronously
pause playback and set one-shot flags (`dispatchOverlayEffects`).  The
camera-follow and DOM-text updates of lines 553-604 carry no scheduler
state. -/
def processEvents (currentTimestamp : ℚ) (s : TimelineState) : TimelineState :=
  if s.lastEventProcessedTime ≠ 0 ∧ currentTimestamp - s.lastEventProcessedTime < 500 then s
  else
    match selectNextEvent s.data s.currentStage s.lastProcessedEventType currentTimestamp with
    | none => s
    | some e =>
      dispatchOverlayEffects e
        { s with
          lastEventProcessedTime := currentTimestamp
          lastProcessedEventType := some e.attack_type
          data := markProcessed e.uid s.data
          dispatchedLog := s.dispatchedLog ++ [e.uid] }

/-- `this.currentTime + deltaTime * this.playbackSpeed * 360 * 1000`
(update, line 1798): the unclamped new simulated time. -/
def rawTime (deltaTime : ℚ) (s : TimelineState) : ℚ :=
  s.currentTime + deltaTime * s.playbackSpeed * 360 * 1000

/-- Clamp of lines 1800-1803: time is pulled back to the duration only
when it strictly exceeds it. -/
def clampTime (t : ℚ) : ℚ :=
  if timelineDuration < t then timelineDuration else t

/-- Stage update of lines 1805-1811: recompute the stage index from the
current hour; adopt it only when it differs and is not `-1`. -/
def nextStage (t : ℚ) (cur : Int) : Int :=
  let ns := findStageIdx (t / (3600 * 1000))
  if ns ≠ cur ∧ 0 ≤ ns then ns else cur

/-- `update(deltaTime)` (lines 1791-1818): no-op while paused; otherwise
advance and clamp the clock (the clamp drops `isPlaying` to false only
on a strict overshoot), resolve the stage, and run the event gate at the
simulated timestamp `startTime + currentTime` — which, on dispatching an
overlay-triggering event, can itself pause playback synchronously
(`dispatchOverlayEffects`).  `updateFlows`/`updateUI` touch no scheduler
state. -/
def update (deltaTime : ℚ) (s : TimelineState) : TimelineState :=
  if s.isPlaying = false then s
  else
    processEvents (s.startTime + clampTime (rawTime deltaTime s))
      { s with
        currentTime := clampTime (rawTime deltaTime s)
        isPlaying := if timelineDuration < rawTime deltaTime s then false else s.isPlaying
        currentStage := nextStage (clampTime (rawTime deltaTime s)) s.currentStage }

/-- Folding a list of frame deltas through `update`: one render-loop tick
per list entry. -/
def applyUpdates (ds : List ℚ) (s : TimelineState) : TimelineState :=
  ds.foldl (fun st dt => update dt st) s

/-- The state produced by the constructor (lines 5-24) for a given
(pre-sorted) event array and start epoch: time 0, speed 1, playing; the
one-shot overlay flags are still JS `undefined`, i.e. falsy. -/
def initEngine (data : List Event) (startTime : ℚ) : TimelineState :=
  { data := data
    currentTime := 0
    playbackSpeed := 1
    isPlaying := true
    currentStage := 0
    lastEventProcessedTime := 0
    lastProcessedEventType := none
    startTime := startTime
    cveExplained := false
    criticalAccessShown := false
    ntdsShown := false
    otShown := false
    dispatchedLog := [] }

/-- A 3D position (`THREE.Vector3` as used by the node registry). -/
structure Vec3 where
  x : ℚ
  y : ℚ
  z : ℚ
deriving DecidableEq, Repr

/-- `nodeIp.split('.').slice(0, 3).join('.')` (getNodePosition, line 1651). -/
def firstThreeOctets (ip : String) : String :=
  String.intercalate "." ((ip.splitOn ".").take 3)

/-- `getNodePosition(ip)` (lines 1645-1662): exact `nodeMap` hit, else the
first registered node whose 3-octet prefix starts the queried ip, else a
default position.  The node map is the insertion-ordered key/position list;
the source's `Math.random()`-based default is abstracted as the given
`fallbackPos` (its coordinates never matter to the control flow).  Every
branch returns a value, which the `Option` result makes explicit. -/
def getNodePosition (nodeMap : List (String × Vec3)) (fallbackPos : Vec3)
    (ip : String) : Option Vec3 :=
  match nodeMap.find? (fun kv => kv.1 == ip) with
  | some kv => some kv.2
  | none =>
    match nodeMap.find? (fun kv => ip.startsWith (firstThreeOctets kv.1)) with
    | some kv => some kv.2
    | none => some fallbackPos

/-- Packet multiplicity of `createPacketFlow` (lines 728-736): 3 for
`lotl_discovery`/`wmi_lateral_movement`, else 2 for
`rdp_lateral_movement`, else 5 for category `credential_access`, else 1
(the source checks the attack type before the category). -/
def packetCount (e : Event) : Nat :=
  if e.attack_type == "lotl_discovery" || e.attack_type == "wmi_lateral_movement" then 3
  else if e.attack_type == "rdp_lateral_movement" then 2
  else if e.category == "credential_access" then 5
  else 1

/-- One staggered `createSinglePacket` invocation scheduled by
`createPacketFlow`: its `setTimeout` delay and the `i === 0` flag. -/
structure SpawnCmd where
  delayMs : Nat
  isFirst : Bool
deriving DecidableEq, Repr

/-- The spawn loop of `createPacketFlow` (lines 739-743): packet `i` is
scheduled after `i * 200` ms and only `i === 0` is flagged to trigger the
terminal effects. -/
def spawnSchedule (e : Event) : List SpawnCmd :=
  (List.range (packetCount e)).map (fun i => ⟨i * 200, i == 0⟩)

/-- Waypoint construction of `animateMultiHop` (lines 808-821): start from
the proxy chain when non-empty (else the source ip), then push the
destination unless it is already in the path. -/
def buildFullPath (e : Event) : List String :=
  let base := if 0 < e.proxy_chain.length then e.proxy_chain else [e.source_ip]
  if base.contains e.destination_ip then base else base ++ [e.destination_ip]

/-- The hop loop of `animateMultiHop` (lines 832-878) restated as a walk
over adjacent waypoints: iteration `i` animates `fullPath[i-1] → fullPath[i]`
and fires a pulse (`createHopEffect`) at `fullPath[i]` only when
`i < fullPath.length - 1`, i.e. at every hop target except the final one.
The result collects the pulse locations in order. -/
def hopLoop : List String → List String
  | [] => []
  | [_] => []
  | _ :: b :: rest => (if rest.isEmpty then [] else [b]) ++ hopLoop (b :: rest)

/-- Pulse locations fired by `animateMultiHop` for an event. -/
def hopPulses (e : Event) : List String :=
  hopLoop (buildFullPath e)

/-- The observable effects of one packet's traversal: ordered intermediate
pulse locations and impact locations. -/
structure HopEffects where
  pulses : List String
  impacts : List String
deriving DecidableEq, Repr

/-- `animateMultiHop(packet, event, isFirst)` (lines 804-888): pulses at
the intermediate hop targets, and the final `timeline.call` (lines
880-887) fires the impact/compromise at the destination only for the
first packet of a successful event (the destination always resolves, so
the `destPos` guard always passes). -/
def animateMultiHop (e : Event) (isFirst : Bool) : HopEffects :=
  { pulses := hopPulses e
    impacts := if e.success && isFirst then [e.destination_ip] else [] }

/-- `createSinglePacket(event, sourcePos, destPos, isFirst)` (lines
746-802): a proxy-chain event animates via `animateMultiHop`; a direct
event fires the impact/compromise in its `onComplete` (lines 784-789)
only when the event succeeded and this is the first packet. -/
def createSinglePacket (e : Event) (isFirst : Bool) : HopEffects :=
  if 0 < e.proxy_chain.length then animateMultiHop e isFirst
  else { pulses := [], impacts := if e.success && isFirst then [e.destination_ip] else [] }

/-- `createPacketFlow(event)` (lines 679-744): resolve both endpoints via
`getNodePosition` and abort (`return`, line 683, modelled as `none`) if
either is missing; otherwise schedule `packetCount` staggered packets. -/
def createPacketFlow (nodeMap : List (String × Vec3)) (fallbackPos : Vec3)
    (e : Event) : Option (List SpawnCmd) :=
  match getNodePosition nodeMap fallbackPos e.source_ip,
        getNodePosition nodeMap fallbackPos e.destination_ip with
  | some _, some _ => some (spawnSchedule e)
  | _, _ => none

/-- `highlightZeroDay` entry (lines 923-927): snapshot `isPlaying` into the
closure variable `wasPlaying`, then pause.  Returns the paused state and
the snapshot. -/
def showZeroDayAlert (s : TimelineState) : TimelineState × Bool :=
  ({ s with isPlaying := false }, s.isPlaying)

/-- The scheduled dismissal of `highlightZeroDay` (lines 999-1021): after
7 s the overlay fades and playback resumes only if it was playing when the
alert appeared. -/
def dismissZeroDayAlert (wasPlaying : Bool) (s : TimelineState) : TimelineState :=
  if wasPlaying then { s with isPlaying := true } else s

/-- `togglePlayback()` (lines 1924-1928): unconditionally negate
`isPlaying` (the button label update has no scheduler state). -/
def togglePlayback (s : TimelineState) : TimelineState :=
  { s with isPlaying := !s.isPlaying }

/-- The full engine state acted on by `restart()` (lines 1955-2022): the
scheduler state (which carries the one-shot overlay flags), the
camera-follow marker and the never-read `rdpExplained` flag, the active
flow list (by owning event uid) and the queue of pending `setTimeout`
callbacks (staggered spawns, delayed camera moves, scheduled overlay
dismissals), described by strings.  The source never stores a timeout id
and never calls `clearTimeout`, so no operation can remove a pending
entry early. -/
structure FullState where
  engine : TimelineState
  lastFollowedStage : Option Int
  rdpExplained : Bool
  activeFlows : List Nat
  pendingTimeouts : List String
deriving DecidableEq, Repr

/-- `restart()` (lines 1955-2022): reset clock, stage, gate bookkeeping and
one-shot flags, destroy all active flows, clear every event's `processed`
flag, and reset the camera (not modelled).  The pending `setTimeout`
queue is untouched — the source has no `clearTimeout` and keeps no
timeout handles.  The ghost `dispatchedLog` restarts with the run. -/
def restart (s : FullState) : FullState :=
  { engine :=
      { s.engine with
        currentTime := 0
        currentStage := 0
        isPlaying := true
        lastEventProcessedTime := 0
        lastProcessedEventType := none
        cveExplained := false
        criticalAccessShown := false
        ntdsShown := false
        otShown := false
        data := s.engine.data.map (fun e => { e with processed := false })
        dispatchedLog := [] }
    lastFollowedStage := none
    rdpExplained := false
    activeFlows := []
    pendingTimeouts := s.pendingTimeouts }

theorem dispatchOverlayEffects_data (e : Event) (s : TimelineState) :
    (dispatchOverlayEffects e s).data = s.data := by
  simp only [dispatchOverlayEffects]
  split_ifs <;> rfl

theorem dispatchOverlayEffects_log (e : Event) (s : TimelineState) :
    (dispatchOverlayEffects e s).dispatchedLog = s.dispatchedLog := by
  simp only [dispatchOverlayEffects]
  split_ifs <;> rfl

theorem dispatchOverlayEffects_time (e : Event) (s : TimelineState) :
    (dispatchOverlayEffects e s).currentTime = s.currentTime := by
  simp only [dispatchOverlayEffects]
  split_ifs <;> rfl

theorem dispatchOverlayEffects_speed (e : Event) (s : TimelineState) :
    (dispatchOverlayEffects e s).playbackSpeed = s.playbackSpeed := by
  simp only [dispatchOverlayEffects]
  split_ifs <;> rfl

theorem dispatchOverlayEffects_start (e : Event) (s : TimelineState) :
    (dispatchOverlayEffects e s).startTime = s.startTime := by
  simp only [dispatchOverlayEffects]
  split_ifs <;> rfl

theorem dispatchOverlayEffects_stage (e : Event) (s : TimelineState) :
    (dispatchOverlayEffects e s).currentStage = s.currentStage := by
  simp only [dispatchOverlayEffects]
  split_ifs <;> rfl

/-- The overlay calls can only pause: a state that is already paused
stays paused through them. -/
theorem dispatchOverlayEffects_isPlaying_false {s : TimelineState}
    (h : s.isPlaying = false) (e : Event) :
    (dispatchOverlayEffects e s).isPlaying = false := by
  simp only [dispatchOverlayEffects]
  split_ifs <;> first | rfl | exact h

/-- Dispatching an event that satisfies none of the five overlay guards
changes nothing: every branch of `dispatchOverlayEffects` is skipped. -/
theorem dispatchOverlayEffects_no_trigger {e : Event}
    (h : overlayTrigger e = false) (s : TimelineState) :
    dispatchOverlayEffects e s = s := by
  unfold overlayTrigger at h
  rw [Bool.or_eq_false_iff, Bool.or_eq_false_iff, Bool.or_eq_false_iff,
    Bool.or_eq_false_iff] at h
  obtain ⟨⟨⟨⟨h1, h2⟩, h3⟩, h4⟩, h5⟩ := h
  simp [dispatchOverlayEffects, h1, h2, h3, h4, h5]

theorem processEvents_preserves (ts : ℚ) (s : TimelineState) :
    (processEvents ts s).currentTime = s.currentTime ∧
    (processEvents ts s).playbackSpeed = s.playbackSpeed ∧
    (processEvents ts s).startTime = s.startTime ∧
    (processEvents ts s).currentStage = s.currentStage := by
  unfold processEvents
  split
  · exact ⟨rfl, rfl, rfl, rfl⟩
  · split
    · exact ⟨rfl, rfl, rfl, rfl⟩
    · exact ⟨dispatchOverlayEffects_time _ _, dispatchOverlayEffects_speed _ _,
        dispatchOverlayEffects_start _ _, dispatchOverlayEffects_stage _ _⟩

/-- An event returned by the selector is a genuine candidate: it is in
the list, due, and not yet processed. -/
theorem selectNextEvent_spec {data : List Event} {stage : Int}
    {lastType : Option String} {ts : ℚ} {e : Event}
    (h : selectNextEvent data stage lastType ts = some e) :
    e ∈ data ∧ e.timestamp ≤ ts ∧ e.processed = false := by
  have hmem : e ∈ data ∧ candidateB ts e = true := by
    simp only [selectNextEvent] at h
    by_cases h0 : (data.filter (candidateB ts)).length = 0
    · rw [if_pos h0] at h; cases h
    · rw [if_neg h0] at h
      by_cases h1 : 0 < ((data.filter (candidateB ts)).filter
          (fun e => e.stage == stage)).length
      · rw [if_pos h1] at h
        by_cases h2 : 0 < (((data.filter (candidateB ts)).filter
            (fun e => e.stage == stage)).filter
            (fun e => lastType == some e.attack_type)).length
        · rw [if_pos h2, List.filter_head?] at h
          have hm := List.mem_of_find?_eq_some h
          have hm2 := (List.mem_filter.1 hm).1
          exact ⟨(List.mem_filter.1 hm2).1, (List.mem_filter.1 hm2).2⟩
        · rw [if_neg h2, List.filter_head?] at h
          have hm := List.mem_of_find?_eq_some h
          exact ⟨(List.mem_filter.1 hm).1, (List.mem_filter.1 hm).2⟩
      · rw [if_neg h1, List.filter_head?] at h
        exact ⟨List.mem_of_find?_eq_some h, List.find?_some h⟩
  obtain ⟨hd, hc⟩ := hmem
  obtain ⟨h1, h2⟩ := Bool.and_eq_true _ _ ▸ hc
  exact ⟨hd, by simpa using h1, by simpa using h2⟩

/-- `processEvents` either leaves the state alone or dispatches exactly
the selected event: the gate bookkeeping, the `processed` mark and the
hand-off, followed by the synchronous overlay effects. -/
theorem processEvents_cases (ts : ℚ) (s : TimelineState) :
    processEvents ts s = s ∨
    ∃ e, selectNextEvent s.data s.currentStage s.lastProcessedEventType ts = some e ∧
      processEvents ts s =
        dispatchOverlayEffects e
          { s with
            lastEventProcessedTime := ts
            lastProcessedEventType := some e.attack_type
            data := markProcessed e.uid s.data
            dispatchedLog := s.dispatchedLog ++ [e.uid] } := by
  unfold processEvents
  split
  · exact Or.inl rfl
  · rcases h : selectNextEvent s.data s.currentStage s.lastProcessedEventType ts with _ | e
    · exact Or.inl rfl
    · exact Or.inr ⟨e, rfl, rfl⟩

/-- The gate cannot resume a paused clock: `processEvents` never sets
`isPlaying` to true. -/
theorem processEvents_isPlaying_of_false {s : TimelineState}
    (h : s.isPlaying = false) (ts : ℚ) :
    (processEvents ts s).isPlaying = false := by
  rcases processEvents_cases ts s with heq | ⟨e, _, heq⟩
  · rw [heq]; exact h
  · rw [heq]
    apply dispatchOverlayEffects_isPlaying_false
    exact h

/-- When no event of the log can trigger an overlay, the gate leaves
`isPlaying` alone. -/
theorem processEvents_isPlaying_no_trigger (ts : ℚ) {s : TimelineState}
    (h : ∀ e ∈ s.data, overlayTrigger e = false) :
    (processEvents ts s).isPlaying = s.isPlaying := by
  rcases processEvents_cases ts s with heq | ⟨e, hsel, heq⟩
  · rw [heq]
  · rw [heq, dispatchOverlayEffects_no_trigger (h e (selectNextEvent_spec hsel).1)]

theorem update_of_paused {s : TimelineState} (h : s.isPlaying = false) (dt : ℚ) :
    update dt s = s := by
  unfold update
  simp [h]

theorem update_playing_fields {s : TimelineState} (dt : ℚ) (h : s.isPlaying = true) :
    (update dt s).currentTime = clampTime (rawTime dt s) ∧
    (update dt s).playbackSpeed = s.playbackSpeed ∧
    (update dt s).startTime = s.startTime := by
  unfold update
  simp only [h, Bool.true_eq_false, if_false]
  exact ⟨(processEvents_preserves _ _).1, (processEvents_preserves _ _).2.1,
    (processEvents_preserves _ _).2.2.1⟩

/-- Over a log with no overlay-triggering events, a playing tick keeps
playing exactly when the unclamped time does not strictly overshoot. -/
theorem update_isPlaying_no_trigger {s : TimelineState} (dt : ℚ)
    (h : s.isPlaying = true) (hno : ∀ e ∈ s.data, overlayTrigger e = false) :
    (update dt s).isPlaying =
      (if timelineDuration < rawTime dt s then false else true) := by
  unfold update
  simp only [h, Bool.true_eq_false, if_false]
  apply processEvents_isPlaying_no_trigger
  exact hno

/-- Marking an event processed changes no field read by the overlay
guards. -/
theorem overlayTrigger_markProcessed {data : List Event} {u : Nat}
    (h : ∀ e ∈ data, overlayTrigger e = false) :
    ∀ e ∈ markProcessed u data, overlayTrigger e = false := by
  intro x hx
  obtain ⟨y, hy, rfl⟩ := List.mem_map.1 hx
  by_cases hyu : y.uid = u
  · rw [if_pos hyu]
    exact h y hy
  · rw [if_neg hyu]
    exact h y hy

/-- A tick preserves the absence of overlay-triggering events in the
log. -/
theorem update_no_trigger_data {s : TimelineState} (dt : ℚ)
    (h : ∀ e ∈ s.data, overlayTrigger e = false) :
    ∀ e ∈ (update dt s).data, overlayTrigger e = false := by
  unfold update
  split
  · exact h
  · rcases processEvents_cases _ _ with heq | ⟨e, _, heq⟩
    · rw [heq]; exact h
    · rw [heq]
      intro x hx
      rw [dispatchOverlayEffects_data] at hx
      exact overlayTrigger_markProcessed h x hx

theorem applyUpdates_nil (s : TimelineState) : applyUpdates [] s = s := rfl

theorem applyUpdates_cons (d : ℚ) (ds : List ℚ) (s : TimelineState) :
    applyUpdates (d :: ds) s = applyUpdates ds (update d s) := rfl

theorem clampTime_eq_min (t : ℚ) : clampTime t = min timelineDuration t := by
  unfold clampTime
  rcases le_or_lt t timelineDuration with h | h
  · rw [if_neg (not_lt.2 h), min_eq_right h]
  · rw [if_pos h, min_eq_left h.le]

theorem applyUpdates_paused {s : TimelineState} (h : s.isPlaying = false)
    (ds : List ℚ) : applyUpdates ds s = s := by
  induction ds with
  | nil => rfl
  | cons d ds ih => rw [applyUpdates_cons, update_of_paused h]; exact ih

/-- On a playing state whose whole remaining advance fits inside the
timeline, the clock accumulates exactly `360000 ·` the sum of the real
deltas and playback never stops. -/
theorem applyUpdates_linear (ds : List ℚ) :
    ∀ s : TimelineState, (∀ d ∈ ds, 0 ≤ d) → s.isPlaying = true →
      s.playbackSpeed = 1 → (∀ e ∈ s.data, overlayTrigger e = false) →
      s.currentTime + 360000 * ds.sum ≤ timelineDuration →
      (applyUpdates ds s).currentTime = s.currentTime + 360000 * ds.sum ∧
      (applyUpdates ds s).isPlaying = true ∧
      (applyUpdates ds s).playbackSpeed = 1 := by
  induction ds with
  | nil =>
    intro s _ hp hsp _ _
    refine ⟨by simp [applyUpdates_nil], by simp [applyUpdates_nil, hp],
      by simp [applyUpdates_nil, hsp]⟩
  | cons d ds ih =>
    intro s hnn hp hsp hno hle
    have hd : 0 ≤ d := hnn d (List.mem_cons_self _ _)
    have hds : 0 ≤ ds.sum :=
      List.sum_nonneg (fun x hx => hnn x (List.mem_cons_of_mem _ hx))
    have hraw : rawTime d s = s.currentTime + 360000 * d := by
      unfold rawTime; rw [hsp]; ring
    have hsum : s.currentTime + 360000 * (d :: ds).sum
        = s.currentTime + 360000 * d + 360000 * ds.sum := by
      rw [List.sum_cons]; ring
    have hle1 : rawTime d s ≤ timelineDuration := by
      rw [hraw]; nlinarith [hle, hsum]
    have hup := update_playing_fields d hp
    have hct : (update d s).currentTime = s.currentTime + 360000 * d := by
      rw [hup.1]; unfold clampTime; rw [if_neg (not_lt.2 hle1), hraw]
    have hip : (update d s).isPlaying = true := by
      rw [update_isPlaying_no_trigger d hp hno, if_neg (not_lt.2 hle1)]
    have hsp' : (update d s).playbackSpeed = 1 := by rw [hup.2.1, hsp]
    have hno' : ∀ e ∈ (update d s).data, overlayTrigger e = false :=
      update_no_trigger_data d hno
    have hle2 : (update d s).currentTime + 360000 * ds.sum ≤ timelineDuration := by
      rw [hct]; nlinarith [hle, hsum]
    obtain ⟨h1, h2, h3⟩ :=
      ih (update d s) (fun x hx => hnn x (List.mem_cons_of_mem _ hx)) hip hsp' hno' hle2
    rw [applyUpdates_cons]
    exact ⟨by rw [h1, hct, hsum], h2, h3⟩

/-- C1: the paused clock is frozen; a playing tick advances simulated
time by `deltaTime * playbackSpeed * 360000` ms clamped to the 72-hour
duration; and — amending the claim — playback can stop in two ways: the
end-of-timeline clamp clears `isPlaying` only when the unclamped time
*strictly* exceeds the duration, and independently the dispatch of an
overlay-triggering event (zero-day, credential access, NTDS extraction,
OT access, stage-5 exfiltration) pauses playback synchronously.  Over a
log with no overlay-triggering events a playing tick keeps playing
exactly when there is no strict overshoot, so real ticks summing to
720 s at speed 1 land on exactly 259,200,000 ms with playback still
marked as playing. -/
theorem c1_clock_scaling :
    (∀ (s : TimelineState) (dt : ℚ), s.isPlaying = false → update dt s = s) ∧
    (∀ (s : TimelineState) (dt : ℚ), s.isPlaying = true →
      (update dt s).currentTime = min timelineDuration (rawTime dt s)) ∧
    (∀ (s : TimelineState) (dt : ℚ), s.isPlaying = true →
      (∀ e ∈ s.data, overlayTrigger e = false) →
      ((update dt s).isPlaying = true ↔ rawTime dt s ≤ timelineDuration)) ∧
    (∀ (ds : List ℚ) (data : List Event) (st : ℚ),
      (∀ d ∈ ds, 0 ≤ d) → ds.sum = 720 →
      (∀ e ∈ data, overlayTrigger e = false) →
      (applyUpdates ds (initEngine data st)).currentTime = 259200000 ∧
      (applyUpdates ds (initEngine data st)).isPlaying = true) := by
  refine ⟨fun s dt h => update_of_paused h dt,
    fun s dt h => by rw [(update_playing_fields dt h).1, clampTime_eq_min],
    fun s dt h hno => ?_, fun ds data st hnn hsum hno => ?_⟩
  · rw [update_isPlaying_no_trigger dt h hno]
    constructor
    · intro hpl
      by_contra hgt
      rw [if_pos (not_le.1 hgt)] at hpl
      exact Bool.false_ne_true hpl
    · intro hle
      rw [if_neg (not_lt.2 hle)]
  · have hinit : (initEngine data st).currentTime + 360000 * ds.sum ≤ timelineDuration := by
      rw [hsum]
      norm_num [initEngine, timelineDuration]
    obtain ⟨h1, h2, _⟩ := applyUpdates_linear ds (initEngine data st) hnn rfl rfl hno hinit
    rw [hsum] at h1
    refine ⟨?_, h2⟩
    rw [h1]
    norm_num [initEngine]

theorem c1_clock_scaling_witness :
    (applyUpdates [720] (initEngine [] 0)).currentTime = 259200000 ∧
    (applyUpdates [720] (initEngine [] 0)).isPlaying = true :=
  c1_clock_scaling.2.2.2 [720] [] 0 (by norm_num) (by norm_num)
    (by intro e he; cases he)

/-- C1 counterexample: a single real tick of 720 s at speed 1 from the
initial state brings simulated time to exactly the 72-hour duration
(259,200,000 ms), yet `isPlaying` is still true — the source only stops
playback when `currentTime` strictly exceeds `duration` (line 1800 uses
`>`), contradicting "isPlaying is set to false upon reaching the end". -/
theorem c1_end_not_stopped_counterexample :
    (update 720 (initEngine [] 0)).currentTime = 259200000 ∧
    (update 720 (initEngine [] 0)).isPlaying = true := by
  constructor <;>
  norm_num [update, initEngine, processEvents, selectNextEvent, candidateB, rawTime,
    clampTime, nextStage, findStageIdx, stages, timelineDuration]

/-- C2 (amended): the 500 ms minimum inter-dispatch interval is measured
on the *simulated* timestamp handed to `processEvents` (`startTime +
currentTime`), not on real wall-clock time: the gate blocks exactly when
less than 500 simulated milliseconds have passed since the previous
dispatch (or lets the tick through when the last-dispatch marker is still
0). -/
theorem c2_gate_simulated_time :
    (∀ (s : TimelineState) (ts : ℚ),
      s.lastEventProcessedTime ≠ 0 → ts - s.lastEventProcessedTime < 500 →
      processEvents ts s = s) ∧
    (∀ (s : TimelineState) (ts : ℚ),
      processEvents ts s ≠ s →
      s.lastEventProcessedTime = 0 ∨ 500 ≤ ts - s.lastEventProcessedTime) := by
  have h1 : ∀ (s : TimelineState) (ts : ℚ),
      s.lastEventProcessedTime ≠ 0 → ts - s.lastEventProcessedTime < 500 →
      processEvents ts s = s := by
    intro s ts hne hlt
    unfold processEvents
    rw [if_pos ⟨hne, hlt⟩]
  refine ⟨h1, fun s ts hne => ?_⟩
  rcases eq_or_ne s.lastEventProcessedTime 0 with h0 | h0
  · exact Or.inl h0
  · refine Or.inr ?_
    by_contra hlt
    exact hne (h1 s ts h0 (not_le.1 hlt))

theorem c2_gate_simulated_time_witness :
    processEvents 300 { initEngine [] 0 with lastEventProcessedTime := 100 }
      = { initEngine [] 0 with lastEventProcessedTime := 100 } :=
  c2_gate_simulated_time.1 _ 300 (by norm_num [initEngine]) (by norm_num [initEngine])

/-- First event of the C2 counterexample run: a candidate at simulated
timestamp 0. -/
def cexE1 : Event :=
  { uid := 0
    timestamp := 0
    source_ip := "45.76.128.0"
    destination_ip := "192.168.100.10"
    category := "reconnaissance"
    attack_type := "port_scan"
    severity := 3
    success := true
    stage := 0
    proxy_chain := []
    description := none
    processed := false }

/-- Second event of the C2 counterexample run: a candidate 10 simulated
milliseconds after the first. -/
def cexE2 : Event := { cexE1 with uid := 1, timestamp := 10 }

/-- C2 counterexample: two candidates 10 simulated ms apart are *both*
dispatched by two render ticks of 0.01 real seconds each (0.02 s of real
time in total, far below 500 ms), because each tick advances simulated
time by 3600 ms ≥ 500 ms at speed 1 — refuting the reading that the gate
is measured in real wall-clock time. -/
theorem c2_real_time_counterexample :
    ((1 : ℚ)/100 + 1/100 < 1/2) ∧
    (applyUpdates [1/100, 1/100] (initEngine [cexE1, cexE2] 0)).dispatchedLog = [0, 1] := by
  constructor
  · norm_num
  · have hd1 : ∀ s, dispatchOverlayEffects cexE1 s = s :=
      fun s => dispatchOverlayEffects_no_trigger (by decide) s
    have hd2 : ∀ s, dispatchOverlayEffects cexE2 s = s :=
      fun s => dispatchOverlayEffects_no_trigger (by decide) s
    simp only [cexE1] at hd1
    simp only [cexE2, cexE1] at hd2
    norm_num [applyUpdates, update, initEngine, processEvents, selectNextEvent, candidateB,
      markProcessed, hd1, hd2, rawTime, clampTime, nextStage, findStageIdx, stages,
      timelineDuration, cexE1, cexE2, List.filter, List.find?, beq_iff_eq]

/-- In a timestamp-sorted event list, the first match of a predicate has
the least timestamp among all matches. -/
theorem find?_min_timestamp :
    ∀ {data : List Event} {p : Event → Bool} {e : Event},
      data.Pairwise (fun a b => a.timestamp ≤ b.timestamp) →
      data.find? p = some e → ∀ x ∈ data, p x = true → e.timestamp ≤ x.timestamp := by
  intro data
  induction data with
  | nil => intro p e _ h; cases h
  | cons a t ih =>
    intro p e hs hf x hx hpx
    obtain ⟨ha, ht⟩ := List.pairwise_cons.1 hs
    by_cases hpa : p a = true
    · rw [List.find?_cons_of_pos t hpa] at hf
      obtain rfl : a = e := by injection hf
      rcases List.mem_cons.1 hx with rfl | hx'
      · exact le_refl _
      · exact ha x hx'
    · rw [List.find?_cons_of_neg t (by simpa using hpa)] at hf
      rcases List.mem_cons.1 hx with rfl | hx'
      · exact absurd hpx hpa
      · exact ih ht hf x hx' hpx

/-- First scenario event of C3: `port_scan` at simulated timestamp 0,
stage 1. -/
def c3Ev1 : Event := { cexE1 with uid := 0, timestamp := 0, stage := 1 }

/-- Second scenario event of C3: `zero_day_exploit` at timestamp 50 ms,
stage 1. -/
def c3Ev2 : Event :=
  { cexE1 with uid := 1, timestamp := 50, attack_type := "zero_day_exploit", stage := 1 }

/-- Third scenario event of C3: another `port_scan` at timestamp 100 ms,
stage 1. -/
def c3Ev3 : Event := { cexE1 with uid := 2, timestamp := 100, stage := 1 }

/-- C3: the dispatch priority order of `processEvents` — first a
current-stage candidate of the previously dispatched attack type, else
the first current-stage candidate in list (= timestamp) order, else the
earliest candidate of any stage; `find?` returns the first match in list
order and, on a timestamp-sorted list, that is the earliest match.  The
final conjunct runs the spec scenario end to end: after the first
port_scan is dispatched, the second tick dispatches the later port_scan
(uid 2) ahead of the earlier-timestamped zero_day_exploit (uid 1). -/
theorem c3_continuity_priority :
    (∀ (data : List Event) (stage : Int) (lastType : Option String) (ts : ℚ),
      (∃ e ∈ data,
        ((lastType == some e.attack_type) && (e.stage == stage) && candidateB ts e) = true) →
      selectNextEvent data stage lastType ts =
        data.find?
          (fun e => (lastType == some e.attack_type) && (e.stage == stage) && candidateB ts e)) ∧
    (∀ (data : List Event) (stage : Int) (lastType : Option String) (ts : ℚ),
      (∀ e ∈ data,
        ((lastType == some e.attack_type) && (e.stage == stage) && candidateB ts e) = false) →
      (∃ e ∈ data, ((e.stage == stage) && candidateB ts e) = true) →
      selectNextEvent data stage lastType ts =
        data.find? (fun e => (e.stage == stage) && candidateB ts e)) ∧
    (∀ (data : List Event) (stage : Int) (lastType : Option String) (ts : ℚ),
      (∀ e ∈ data, ((e.stage == stage) && candidateB ts e) = false) →
      (∃ e ∈ data, candidateB ts e = true) →
      selectNextEvent data stage lastType ts = data.find? (candidateB ts)) ∧
    (∀ (data : List Event) (p : Event → Bool) (e : Event),
      data.Pairwise (fun a b => a.timestamp ≤ b.timestamp) →
      data.find? p = some e → ∀ x ∈ data, p x = true → e.timestamp ≤ x.timestamp) ∧
    ((applyUpdates [72, 1/100] (initEngine [c3Ev1, c3Ev2, c3Ev3] 0)).dispatchedLog = [0, 2]) := by
  refine ⟨?_, ?_, ?_, fun data p e hs hf => find?_min_timestamp hs hf, ?_⟩
  · intro data stage lastType ts ⟨e, he, hP⟩
    obtain ⟨⟨hT, hS⟩, hC⟩ : ((lastType == some e.attack_type) = true ∧
        (e.stage == stage) = true) ∧ candidateB ts e = true := by
      simpa [Bool.and_eq_true] using hP
    simp only [selectNextEvent]
    have heA : e ∈ data.filter (candidateB ts) := List.mem_filter.2 ⟨he, hC⟩
    have heS : e ∈ (data.filter (candidateB ts)).filter (fun e => e.stage == stage) :=
      List.mem_filter.2 ⟨heA, hS⟩
    have heT : e ∈ ((data.filter (candidateB ts)).filter
        (fun e => e.stage == stage)).filter (fun e => lastType == some e.attack_type) :=
      List.mem_filter.2 ⟨heS, hT⟩
    rw [if_neg (List.length_pos_of_mem heA).ne',
      if_pos (List.length_pos_of_mem heS), if_pos (List.length_pos_of_mem heT),
      List.filter_filter, List.filter_filter, List.filter_head?]
  · intro data stage lastType ts hnone ⟨e, he, hP⟩
    obtain ⟨hS, hC⟩ : (e.stage == stage) = true ∧ candidateB ts e = true := by
      simpa [Bool.and_eq_true] using hP
    simp only [selectNextEvent]
    have heA : e ∈ data.filter (candidateB ts) := List.mem_filter.2 ⟨he, hC⟩
    have heS : e ∈ (data.filter (candidateB ts)).filter (fun e => e.stage == stage) :=
      List.mem_filter.2 ⟨heA, hS⟩
    have hTnil : ((data.filter (candidateB ts)).filter
        (fun e => e.stage == stage)).filter (fun e => lastType == some e.attack_type) = [] := by
      rw [List.filter_filter, List.filter_filter]
      refine List.filter_eq_nil_iff.2 (fun a ha => ?_)
      simpa [Bool.and_eq_true, and_assoc, and_comm] using (hnone a ha)
    rw [if_neg (List.length_pos_of_mem heA).ne',
      if_pos (List.length_pos_of_mem heS), hTnil]
    simp only [List.length_nil, lt_self_iff_false, if_false]
    rw [List.filter_filter, List.filter_head?]
  · intro data stage lastType ts hnone ⟨e, he, hC⟩
    simp only [selectNextEvent]
    have heA : e ∈ data.filter (candidateB ts) := List.mem_filter.2 ⟨he, hC⟩
    have hSnil : (data.filter (candidateB ts)).filter (fun e => e.stage == stage) = [] := by
      rw [List.filter_filter]
      refine List.filter_eq_nil_iff.2 (fun a ha => ?_)
      simpa [Bool.and_eq_true, and_comm] using (hnone a ha)
    rw [if_neg (List.length_pos_of_mem heA).ne', hSnil]
    simp only [List.length_nil, lt_self_iff_false, if_false]
    rw [List.filter_head?]
  · have hd1 : ∀ s, dispatchOverlayEffects c3Ev1 s = s :=
      fun s => dispatchOverlayEffects_no_trigger (by decide) s
    have hd3 : ∀ s, dispatchOverlayEffects c3Ev3 s = s :=
      fun s => dispatchOverlayEffects_no_trigger (by decide) s
    simp only [c3Ev1, cexE1] at hd1
    simp only [c3Ev3, cexE1] at hd3
    norm_num [applyUpdates, update, initEngine, processEvents, selectNextEvent, candidateB,
      markProcessed, hd1, hd3, rawTime, clampTime, nextStage, findStageIdx, stages,
      timelineDuration, c3Ev1, c3Ev2, c3Ev3, cexE1, List.filter, List.find?, beq_iff_eq]
    decide

theorem c3_continuity_priority_witness :
    selectNextEvent [cexE1] 5 none 100 = [cexE1].find? (candidateB 100) :=
  c3_continuity_priority.2.2.1 [cexE1] 5 none 100
    (by intro e he; simp [cexE1] at he; simp [he, cexE1])
    ⟨cexE1, by simp, by norm_num [candidateB, cexE1]⟩

/-- Run invariant for dispatch uniqueness: the hand-off log has no
repeats, and every logged uid denotes an event already marked processed. -/
def DispatchInvariant (s : TimelineState) : Prop :=
  s.dispatchedLog.Nodup ∧
  ∀ u ∈ s.dispatchedLog, ∀ e ∈ s.data, e.uid = u → e.processed = true

theorem markProcessed_mem {u : Nat} {data : List Event} {x : Event}
    (hx : x ∈ markProcessed u data) :
    ∃ y ∈ data, x = (if y.uid = u then { y with processed := true } else y) := by
  obtain ⟨y, hy, hxy⟩ := List.mem_map.1 hx
  exact ⟨y, hy, hxy.symm⟩

theorem processEvents_invariant (ts : ℚ) {s : TimelineState}
    (h : DispatchInvariant s) : DispatchInvariant (processEvents ts s) := by
  rcases processEvents_cases ts s with heq | ⟨e, hsel, heq⟩
  · rw [heq]; exact h
  · obtain ⟨hmem, _, hproc⟩ := selectNextEvent_spec hsel
    have hnotin : e.uid ∉ s.dispatchedLog := by
      intro hin
      have := h.2 e.uid hin e hmem rfl
      rw [hproc] at this
      exact Bool.false_ne_true this
    rw [heq]
    constructor
    · rw [dispatchOverlayEffects_log]
      show (s.dispatchedLog ++ [e.uid]).Nodup
      simp only [List.nodup_append, List.nodup_cons, List.nodup_nil, and_true,
        List.not_mem_nil, not_false_iff, List.disjoint_singleton]
      exact ⟨h.1, trivial, hnotin⟩
    · intro u hu x hx hxu
      rw [dispatchOverlayEffects_log] at hu
      rw [dispatchOverlayEffects_data] at hx
      rcases markProcessed_mem hx with ⟨y, hy, rfl⟩
      rcases List.mem_append.1 hu with hu | hu
      · by_cases hyu : y.uid = u
        · by_cases hye : y.uid = e.uid
          · rw [if_pos hye]
          · rw [if_neg hye]
            exact h.2 u hu y hy hyu
        · by_cases hye : y.uid = e.uid
          · rw [if_pos hye]
          · rw [if_neg hye] at hxu ⊢
            exact absurd hxu hyu
      · have hue : u = e.uid := by simpa using hu
        by_cases hye : y.uid = e.uid
        · rw [if_pos hye]
        · rw [if_neg hye] at hxu ⊢
          exact absurd (hxu.trans hue) hye

theorem update_invariant (dt : ℚ) {s : TimelineState}
    (h : DispatchInvariant s) : DispatchInvariant (update dt s) := by
  unfold update
  split
  · exact h
  · exact processEvents_invariant _ ⟨h.1, h.2⟩

theorem applyUpdates_invariant (ds : List ℚ) :
    ∀ {s : TimelineState}, DispatchInvariant s →
      DispatchInvariant (applyUpdates ds s) := by
  induction ds with
  | nil => intro s h; exact h
  | cons d ds ih => intro s h; rw [applyUpdates_cons]; exact ih (update_invariant d h)

/-- C4: per tick at most one event is appended to the Flow-Choreographer
hand-off log; an event fully marked processed stays processed under any
tick (`processed` only rises); and over any restart-free run from a state
satisfying the dispatch invariant the hand-off log stays duplicate-free,
so no event is passed to `createPacketFlow` twice. -/
theorem c4_dispatch_uniqueness :
    (∀ (s : TimelineState) (dt : ℚ), ∃ t, (update dt s).dispatchedLog = s.dispatchedLog ++ t ∧
      t.length ≤ 1) ∧
    (∀ (s : TimelineState) (dt : ℚ) (u : Nat),
      (∀ e ∈ s.data, e.uid = u → e.processed = true) →
      ∀ e ∈ (update dt s).data, e.uid = u → e.processed = true) ∧
    (∀ (s : TimelineState) (ds : List ℚ),
      DispatchInvariant s → DispatchInvariant (applyUpdates ds s)) ∧
    (∀ (s : TimelineState) (ds : List ℚ),
      DispatchInvariant s → (applyUpdates ds s).dispatchedLog.Nodup) := by
  have hlog : ∀ (s : TimelineState) (dt : ℚ), ∃ t,
      (update dt s).dispatchedLog = s.dispatchedLog ++ t ∧ t.length ≤ 1 := by
    intro s dt
    unfold update
    split
    · exact ⟨[], by simp⟩
    · rcases processEvents_cases (s.startTime + clampTime (rawTime dt s))
        { s with
          currentTime := clampTime (rawTime dt s)
          isPlaying := if timelineDuration < rawTime dt s then false else s.isPlaying
          currentStage := nextStage (clampTime (rawTime dt s)) s.currentStage } with heq | ⟨e, _, heq⟩
      · rw [heq]; exact ⟨[], by simp⟩
      · rw [heq]; exact ⟨[e.uid], by simp [dispatchOverlayEffects_log]⟩
  have hmono : ∀ (s : TimelineState) (dt : ℚ) (u : Nat),
      (∀ e ∈ s.data, e.uid = u → e.processed = true) →
      ∀ e ∈ (update dt s).data, e.uid = u → e.processed = true := by
    intro s dt u hall
    unfold update
    split
    · exact hall
    · rcases processEvents_cases (s.startTime + clampTime (rawTime dt s))
        { s with
          currentTime := clampTime (rawTime dt s)
          isPlaying := if timelineDuration < rawTime dt s then false else s.isPlaying
          currentStage := nextStage (clampTime (rawTime dt s)) s.currentStage } with heq | ⟨e, _, heq⟩
      · rw [heq]; exact hall
      · rw [heq]
        intro x hx hxu
        rw [dispatchOverlayEffects_data] at hx
        rcases markProcessed_mem hx with ⟨y, hy, rfl⟩
        by_cases hye : y.uid = e.uid
        · rw [if_pos hye]
        · rw [if_neg hye] at hxu ⊢
          exact hall y hy hxu
  refine ⟨hlog, hmono, fun s ds h => applyUpdates_invariant ds h,
    fun s ds h => (applyUpdates_invariant ds h).1⟩

theorem c4_dispatch_uniqueness_witness :
    (applyUpdates [1/100] (initEngine [cexE1] 0)).dispatchedLog.Nodup :=
  c4_dispatch_uniqueness.2.2.2 (initEngine [cexE1] 0) [1/100]
    ⟨List.nodup_nil, by intro u hu; cases hu⟩

/-- The hop loop over a path `c ++ [d]` pulses at every element of `c`
except the first: the walk starts at `c[0]`, pulses on arriving at
`c[1] … c[last]`, and stays silent on the final arrival at `d`. -/
theorem hopLoop_append (c : List String) (d : String) (hc : c ≠ []) :
    hopLoop (c ++ [d]) = c.drop 1 := by
  induction c with
  | nil => exact absurd rfl hc
  | cons a t ih =>
    cases t with
    | nil => simp [hopLoop]
    | cons b u =>
      have h2 : hopLoop ((b :: u) ++ [d]) = (b :: u).drop 1 := ih (by simp)
      have hne : ¬ ((u ++ [d]).isEmpty = true) := by simp
      show hopLoop (a :: b :: (u ++ [d])) = b :: u
      rw [hopLoop, if_neg hne]
      show [b] ++ hopLoop ((b :: u) ++ [d]) = b :: u
      rw [h2]
      rfl

/-- The C5 scenario event: `proxy_chain = ["A","B"]`, destination `"C"`,
successful. -/
def evC5 : Event :=
  { cexE1 with
    uid := 50
    attack_type := "multi_hop_exfiltration"
    category := "exfiltration"
    source_ip := "S"
    destination_ip := "C"
    proxy_chain := ["A", "B"] }

/-- C5 (amended): for a non-empty proxy chain that does not already hold
the destination, the waypoint list is the chain followed by the
destination; the traversal pulses exactly at the waypoints strictly
between the first and the last — i.e. at the chain minus its head, one
pulse fewer than the claim counted — and the impact fires exactly once at
the destination for the first packet of a successful event.  For
`["A","B"] → "C"` that is waypoints `[A,B,C]`, one pulse (at `B`) and one
impact at `C`. -/
theorem c5_multihop_effects :
    (∀ e : Event, e.proxy_chain ≠ [] → e.proxy_chain.contains e.destination_ip = false →
      buildFullPath e = e.proxy_chain ++ [e.destination_ip] ∧
      ∀ isF : Bool,
        (animateMultiHop e isF).pulses = e.proxy_chain.drop 1 ∧
        (animateMultiHop e isF).impacts =
          (if e.success && isF then [e.destination_ip] else [])) ∧
    (buildFullPath evC5 = ["A", "B", "C"] ∧
     (animateMultiHop evC5 true).pulses = ["B"] ∧
     (animateMultiHop evC5 true).impacts = ["C"]) := by
  constructor
  · intro e hne hnc
    have hpos : 0 < e.proxy_chain.length := List.length_pos.2 hne
    have hpath : buildFullPath e = e.proxy_chain ++ [e.destination_ip] := by
      unfold buildFullPath
      simp only [hpos, if_pos, hnc]
      simp
    refine ⟨hpath, fun isF => ⟨?_, rfl⟩⟩
    unfold animateMultiHop hopPulses
    simp only [hpath]
    exact hopLoop_append _ _ hne
  · exact ⟨by decide, by decide, by decide⟩

theorem c5_multihop_effects_witness :
    buildFullPath evC5 = evC5.proxy_chain ++ [evC5.destination_ip] ∧
    (animateMultiHop evC5 true).pulses = evC5.proxy_chain.drop 1 :=
  ⟨(c5_multihop_effects.1 evC5 (by decide) (by decide)).1,
   ((c5_multihop_effects.1 evC5 (by decide) (by decide)).2 true).1⟩

/-- C5 counterexample: with waypoints `[A,B,C]` the traversal fires
exactly one intermediate-hop pulse (at `B`), not the two the claim
states — the loop pulses only when `i < fullPath.length - 1`, skipping
both the starting waypoint `A` (never arrived at) and the destination. -/
theorem c5_pulse_count_counterexample :
    buildFullPath evC5 = ["A", "B", "C"] ∧
    (animateMultiHop evC5 true).pulses.length = 1 ∧
    (animateMultiHop evC5 true).pulses.length ≠ 2 ∧
    (animateMultiHop evC5 true).impacts = ["C"] := by
  refine ⟨by decide, by decide, by decide, by decide⟩

/-- The C6 scenario event: `category = "credential_access"` with a
credential-theft attack type. -/
def evCred : Event :=
  { cexE1 with
    uid := 60
    attack_type := "credential_harvesting"
    category := "credential_access" }

/-- C6: flow multiplicity by attack class — 5 for credential access, 3
for `lotl_discovery`/`wmi_lateral_movement`, 2 for
`rdp_lateral_movement`, else 1 (the attack-type checks precede the
category check in the source) — with a 200 ms stagger between consecutive
spawns, exactly one batch member flagged as first, and the
impact/compromise effects produced only by that first packet no matter
how the others report success. -/
theorem c6_flow_multiplicity :
    (∀ e : Event, e.attack_type = "lotl_discovery" ∨ e.attack_type = "wmi_lateral_movement" →
      packetCount e = 3) ∧
    (∀ e : Event, e.attack_type = "rdp_lateral_movement" → packetCount e = 2) ∧
    (∀ e : Event, e.category = "credential_access" →
      e.attack_type ≠ "lotl_discovery" → e.attack_type ≠ "wmi_lateral_movement" →
      e.attack_type ≠ "rdp_lateral_movement" → packetCount e = 5) ∧
    (∀ e : Event, e.category ≠ "credential_access" →
      e.attack_type ≠ "lotl_discovery" → e.attack_type ≠ "wmi_lateral_movement" →
      e.attack_type ≠ "rdp_lateral_movement" → packetCount e = 1) ∧
    (∀ e : Event, (spawnSchedule e).map SpawnCmd.delayMs =
      (List.range (packetCount e)).map (fun i => i * 200)) ∧
    (∀ e : Event, (spawnSchedule e).filter SpawnCmd.isFirst = [⟨0, true⟩]) ∧
    (∀ e : Event, e.success = true →
      (createSinglePacket e true).impacts = [e.destination_ip]) ∧
    (∀ e : Event, (createSinglePacket e false).impacts = []) := by
  have hpos : ∀ e : Event, 0 < packetCount e := by
    intro e
    unfold packetCount
    split
    · norm_num
    · split
      · norm_num
      · split <;> norm_num
  refine ⟨?_, ?_, ?_, ?_, ?_, ?_, ?_, ?_⟩
  · intro e h
    unfold packetCount
    rcases h with h | h <;> rw [if_pos (by simp [h])]
  · intro e h
    unfold packetCount
    rw [if_neg (by simp [h]), if_pos (by simp [h])]
  · intro e hc h1 h2 h3
    unfold packetCount
    rw [if_neg (by simp [h1, h2]), if_neg (by simp [h3]), if_pos (by simp [hc])]
  · intro e hc h1 h2 h3
    unfold packetCount
    rw [if_neg (by simp [h1, h2]), if_neg (by simp [h3]), if_neg (by simp [hc])]
  · intro e
    unfold spawnSchedule
    rw [List.map_map]
    rfl
  · intro e
    unfold spawnSchedule
    obtain ⟨m, hm⟩ : ∃ m, packetCount e = m + 1 :=
      ⟨packetCount e - 1, (Nat.succ_pred_eq_of_pos (hpos e)).symm⟩
    rw [hm, List.range_succ_eq_map, List.map_cons, List.map_map]
    rw [List.filter_cons_of_pos (by rfl)]
    congr 1
    refine List.filter_eq_nil_iff.2 (fun c hc => ?_)
    obtain ⟨i, _, rfl⟩ := List.mem_map.1 hc
    simp [SpawnCmd.isFirst, Function.comp]
  · intro e hs
    unfold createSinglePacket animateMultiHop
    split <;> simp [hs]
  · intro e
    unfold createSinglePacket animateMultiHop
    split <;> simp

theorem c6_flow_multiplicity_witness :
    packetCount evCred = 5 ∧
    (spawnSchedule evCred).filter SpawnCmd.isFirst = [⟨0, true⟩] ∧
    (createSinglePacket evCred true).impacts = [evCred.destination_ip] :=
  ⟨c6_flow_multiplicity.2.2.1 evCred (by decide) (by decide) (by decide) (by decide),
   c6_flow_multiplicity.2.2.2.2.2.1 evCred,
   c6_flow_multiplicity.2.2.2.2.2.2.1 evCred (by decide)⟩

/-- C7: from the moment `highlightZeroDay` pauses playback until its
scheduled dismissal, any sequence of `update` ticks leaves the state —
in particular the simulated time — untouched, and the dismissal restores
`isPlaying` to the snapshot taken when the overlay appeared. -/
theorem c7_alert_pause (s : TimelineState) (ds : List ℚ) :
    applyUpdates ds (showZeroDayAlert s).1 = (showZeroDayAlert s).1 ∧
    (applyUpdates ds (showZeroDayAlert s).1).currentTime = s.currentTime ∧
    (dismissZeroDayAlert (showZeroDayAlert s).2
      (applyUpdates ds (showZeroDayAlert s).1)).isPlaying = s.isPlaying := by
  have hfrozen : applyUpdates ds (showZeroDayAlert s).1 = (showZeroDayAlert s).1 :=
    applyUpdates_paused rfl ds
  refine ⟨hfrozen, by rw [hfrozen]; rfl, ?_⟩
  rw [hfrozen]
  unfold showZeroDayAlert dismissZeroDayAlert
  cases hb : s.isPlaying <;> simp [hb]

theorem c7_alert_pause_witness :
    (applyUpdates [1/2, 3] (showZeroDayAlert (initEngine [] 0)).1).currentTime
      = (initEngine [] 0).currentTime ∧
    (dismissZeroDayAlert (showZeroDayAlert (initEngine [] 0)).2
      (applyUpdates [1/2, 3] (showZeroDayAlert (initEngine [] 0)).1)).isPlaying
      = (initEngine [] 0).isPlaying :=
  ⟨(c7_alert_pause (initEngine [] 0) [1/2, 3]).2.1,
   (c7_alert_pause (initEngine [] 0) [1/2, 3]).2.2⟩

/-- C8 (amended): `togglePlayback` always negates `isPlaying` — the source
has no pause lock, so the flip happens even while an Alert overlay is on
screen. -/
theorem c8_toggle_always_flips (s : TimelineState) :
    (togglePlayback s).isPlaying = !s.isPlaying := rfl

theorem c8_toggle_always_flips_witness :
    (togglePlayback (initEngine [] 0)).isPlaying = !(initEngine [] 0).isPlaying :=
  c8_toggle_always_flips (initEngine [] 0)

/-- C8 counterexample: in the window where `highlightZeroDay` has paused
playback and its overlay is displayed (between lines 926 and 999),
`togglePlayback` flips `isPlaying` back to true — the claim's "the flag
is not flipped while an Alert holds the pause lock" fails because no
pause lock exists in `togglePlayback` (lines 1924-1928). -/
theorem c8_no_pause_lock_counterexample :
    (showZeroDayAlert (initEngine [] 0)).1.isPlaying = false ∧
    (togglePlayback (showZeroDayAlert (initEngine [] 0)).1).isPlaying = true := by
  exact ⟨rfl, rfl⟩

/-- C9 (amended): `restart` resets the clock, the stage, the gate
bookkeeping, the one-shot overlay flags, the camera-follow marker, every
event's `processed` flag and the active-flow list, keeps the pending
`setTimeout` queue exactly as it was (the source stores no timer handles
and never calls `clearTimeout`), and is idempotent, so two consecutive
calls yield identical states. -/
theorem c9_restart_reset (s : FullState) :
    (restart s).engine.currentTime = 0 ∧
    (restart s).engine.isPlaying = true ∧
    (restart s).engine.currentStage = 0 ∧
    (restart s).engine.lastEventProcessedTime = 0 ∧
    (restart s).engine.lastProcessedEventType = none ∧
    (restart s).engine.dispatchedLog = [] ∧
    (∀ e ∈ (restart s).engine.data, e.processed = false) ∧
    (restart s).activeFlows = [] ∧
    (restart s).lastFollowedStage = none ∧
    (restart s).rdpExplained = false ∧
    (restart s).engine.cveExplained = false ∧
    (restart s).engine.criticalAccessShown = false ∧
    (restart s).engine.ntdsShown = false ∧
    (restart s).engine.otShown = false ∧
    (restart s).pendingTimeouts = s.pendingTimeouts ∧
    restart (restart s) = restart s := by
  refine ⟨rfl, rfl, rfl, rfl, rfl, rfl, ?_, rfl, rfl, rfl, rfl, rfl, rfl, rfl, rfl, ?_⟩
  · intro e he
    obtain ⟨y, _, rfl⟩ := List.mem_map.1 he
    rfl
  · unfold restart
    simp only [List.map_map]
    rfl

theorem c9_restart_reset_witness :
    (restart (restart
      { engine := { initEngine [cexE1] 0 with cveExplained := true, otShown := true }
        lastFollowedStage := some 2
        rdpExplained := true
        activeFlows := [7]
        pendingTimeouts := ["staggered packet spawn"] })) =
    (restart
      { engine := { initEngine [cexE1] 0 with cveExplained := true, otShown := true }
        lastFollowedStage := some 2
        rdpExplained := true
        activeFlows := [7]
        pendingTimeouts := ["staggered packet spawn"] }) :=
  (c9_restart_reset _).2.2.2.2.2.2.2.2.2.2.2.2.2.2.2

/-- A state captured mid-playback with one staggered packet spawn and one
overlay dismissal still waiting in the `setTimeout` queue. -/
def pendingDemo : FullState :=
  { engine := { initEngine [cexE1, cexE2] 0 with cveExplained := true }
    lastFollowedStage := some 1
    rdpExplained := false
    activeFlows := [0]
    pendingTimeouts := ["staggered packet spawn", "zero-day overlay dismissal"] }

/-- C9 counterexample: `restart` leaves both pending deferred callbacks
in the queue — nothing in the source cancels a `setTimeout` (no handle is
ever stored and `clearTimeout` is never called), so the staggered spawn
and the scheduled overlay dismissal still fire after the reset,
contradicting "cancels every pending deferred callback". -/
theorem c9_no_cancellation_counterexample :
    (restart pendingDemo).pendingTimeouts
      = ["staggered packet spawn", "zero-day overlay dismissal"] ∧
    (restart pendingDemo).pendingTimeouts ≠ [] := by
  exact ⟨rfl, by decide⟩

/-- C10: `getNodePosition` is total — an exact `nodeMap` hit returns that
node's position, otherwise the first 3-octet prefix match does, otherwise
the fallback position is returned, so the result is always `some`; hence
the unresolvable-endpoint guard of `createPacketFlow` never aborts and
every dispatched event schedules at least one packet flow. -/
theorem c10_node_lookup_total :
    (∀ (m : List (String × Vec3)) (fb : Vec3) (ip : String),
      (getNodePosition m fb ip).isSome = true) ∧
    (∀ (m : List (String × Vec3)) (fb : Vec3) (ip : String) (kv : String × Vec3),
      m.find? (fun x => x.1 == ip) = some kv →
      getNodePosition m fb ip = some kv.2) ∧
    (∀ (m : List (String × Vec3)) (fb : Vec3) (ip : String),
      m.find? (fun x => x.1 == ip) = none →
      m.find? (fun x => ip.startsWith (firstThreeOctets x.1)) = none →
      getNodePosition m fb ip = some fb) ∧
    (∀ (m : List (String × Vec3)) (fb : Vec3) (e : Event),
      createPacketFlow m fb e = some (spawnSchedule e) ∧
      1 ≤ (spawnSchedule e).length) := by
  have htotal : ∀ (m : List (String × Vec3)) (fb : Vec3) (ip : String),
      (getNodePosition m fb ip).isSome = true := by
    intro m fb ip
    unfold getNodePosition
    rcases h1 : m.find? (fun x => x.1 == ip) with _ | kv
    · rcases h2 : m.find? (fun x => ip.startsWith (firstThreeOctets x.1)) with _ | kv
      · simp [h1, h2]
      · simp [h1, h2]
    · simp [h1]
  have hcount : ∀ e : Event, 1 ≤ (spawnSchedule e).length := by
    intro e
    unfold spawnSchedule
    rw [List.length_map, List.length_range]
    unfold packetCount
    split
    · norm_num
    · split
      · norm_num
      · split <;> norm_num
  refine ⟨htotal, ?_, ?_, fun m fb e => ⟨?_, hcount e⟩⟩
  · intro m fb ip kv h
    unfold getNodePosition
    rw [h]
  · intro m fb ip h1 h2
    unfold getNodePosition
    rw [h1, h2]
  · obtain ⟨ps, hs⟩ := Option.isSome_iff_exists.1 (htotal m fb e.source_ip)
    obtain ⟨pd, hd⟩ := Option.isSome_iff_exists.1 (htotal m fb e.destination_ip)
    unfold createPacketFlow
    rw [hs, hd]

theorem c10_node_lookup_total_witness :
    getNodePosition [] ⟨0, 50, 0⟩ "192.168.100.10" = some ⟨0, 50, 0⟩ ∧
    createPacketFlow [] ⟨0, 50, 0⟩ cexE1 = some (spawnSchedule cexE1) :=
  ⟨c10_node_lookup_total.2.2.1 [] ⟨0, 50, 0⟩ "192.168.100.10" rfl rfl,
   (c10_node_lookup_total.2.2.2 [] ⟨0, 50, 0⟩ cexE1).1⟩

end VTViz
